import Mathlib

/-!
Shallow embedding of the temporal-history aggregation core of the
medical-device recall backend: the batch feature builder of
`train_multiclass_no_device_dates.py`, the online aggregator and feature
assembler of `predict.py`, and the time-resolution logic used by both.
Times are modelled as integers (seconds); one day is 86400 seconds.
-/

set_option maxHeartbeats 1000000

/-- An event row as seen by the aggregation code after time resolution:
the `device_id`, `manufacturer_id` and `action_classification` columns plus
the resolved `event_time`.  `idx` records the original ingestion position of
the row (its position in the frame before sorting); the aggregation never
reads it, it only serves to express stability of the ordering. -/
structure Event where
  idx : Nat
  device_id : String
  manufacturer_id : String
  action_classification : String
  event_time : Int
  deriving DecidableEq, Repr, Inhabited

/-- Codepoint-lexicographic comparison of two character lists, the order in
which Python (and hence pandas) compares the id strings of the frame. -/
def charListLE : List Char → List Char → Bool
  | [], _ => true
  | _ :: _, [] => false
  | a :: as, b :: bs => if a = b then charListLE as bs else decide (a < b)

/-- Codepoint-lexicographic comparison of two strings. -/
def strLE (s t : String) : Bool := charListLE s.data t.data

/-- The row order of `events.sort_values([key, "event_time"])`: lexicographic
on the grouping key, then the resolved event time. -/
def eventLE (key : Event → String) (a b : Event) : Bool :=
  if key a = key b then decide (a.event_time ≤ b.event_time)
  else strLE (key a) (key b)

/-- `eventLE` as a relation. -/
def eventLEP (key : Event → String) (a b : Event) : Prop :=
  eventLE key a b = true

instance (key : Event → String) (a b : Event) : Decidable (eventLEP key a b) :=
  instDecidableEqBool (eventLE key a b) true

theorem charListLE_total : ∀ xs ys : List Char,
    charListLE xs ys = true ∨ charListLE ys xs = true := by
  intro xs
  induction xs with
  | nil => intro ys; exact Or.inl rfl
  | cons a as ih =>
    intro ys
    cases ys with
    | nil => exact Or.inr rfl
    | cons b bs =>
      by_cases hab : a = b
      · subst hab
        rcases ih bs with h | h
        · exact Or.inl (by simpa [charListLE] using h)
        · exact Or.inr (by simpa [charListLE] using h)
      · rcases lt_trichotomy a b with h | h | h
        · exact Or.inl (by simp [charListLE, hab, h])
        · exact absurd h hab
        · refine Or.inr ?_
          have hba : ¬b = a := fun e => hab e.symm
          simp only [charListLE, if_neg hba, decide_eq_true_eq]
          exact h

theorem charListLE_trans : ∀ xs ys zs : List Char,
    charListLE xs ys = true → charListLE ys zs = true → charListLE xs zs = true := by
  intro xs
  induction xs with
  | nil => intro ys zs _ _; rfl
  | cons a as ih =>
    intro ys zs h1 h2
    cases ys with
    | nil => simp [charListLE] at h1
    | cons b bs =>
      cases zs with
      | nil => simp [charListLE] at h2
      | cons c cs =>
        by_cases hab : a = b <;> by_cases hbc : b = c
        · subst hab; subst hbc
          simp only [charListLE, if_pos rfl] at h1 h2 ⊢
          exact ih bs cs h1 h2
        · subst hab
          simp only [charListLE, if_pos rfl, if_neg hbc] at h1 h2 ⊢
          exact h2
        · subst hbc
          simp only [charListLE, if_pos rfl, if_neg hab] at h1 h2 ⊢
          exact h1
        · simp only [charListLE, if_neg hab, if_neg hbc, decide_eq_true_eq] at h1 h2
          have hac : a < c := lt_trans h1 h2
          simp [charListLE, ne_of_lt hac, hac]

theorem charListLE_antisymm : ∀ xs ys : List Char,
    charListLE xs ys = true → charListLE ys xs = true → xs = ys := by
  intro xs
  induction xs with
  | nil =>
    intro ys h1 h2
    cases ys with
    | nil => rfl
    | cons b bs => simp [charListLE] at h2
  | cons a as ih =>
    intro ys h1 h2
    cases ys with
    | nil => simp [charListLE] at h1
    | cons b bs =>
      by_cases hab : a = b
      · subst hab
        simp only [charListLE, if_pos rfl] at h1 h2
        rw [ih bs h1 h2]
      · simp only [charListLE, if_neg hab, if_neg (fun e : b = a => hab e.symm),
          decide_eq_true_eq] at h1 h2
        exact absurd (lt_trans h1 h2) (lt_irrefl a)

instance (key : Event → String) : IsTotal Event (eventLEP key) := by
  constructor
  intro a b
  unfold eventLEP eventLE
  by_cases hk : key a = key b
  · rcases Int.le_total a.event_time b.event_time with ht | ht
    · exact Or.inl (by simp [hk, ht])
    · exact Or.inr (by simp [hk.symm, ht])
  · rcases charListLE_total (key a).data (key b).data with h | h
    · refine Or.inl ?_
      simp only [if_neg hk]
      exact h
    · refine Or.inr ?_
      have hk2 : ¬key b = key a := fun e => hk e.symm
      simp only [if_neg hk2]
      exact h

instance (key : Event → String) : IsTrans Event (eventLEP key) := by
  constructor
  intro a b c hab hbc
  unfold eventLEP eventLE at hab hbc ⊢
  by_cases h1 : key a = key b <;> by_cases h2 : key b = key c
  · simp only [if_pos h1] at hab
    simp only [if_pos h2] at hbc
    simp only [if_pos (h1.trans h2), decide_eq_true_eq] at hab hbc ⊢
    exact le_trans hab hbc
  · have h3 : key a ≠ key c := fun e => h2 (h1.symm.trans e)
    simp only [if_neg h2] at hbc
    simp only [if_neg h3]
    exact h1 ▸ hbc
  · have h3 : key a ≠ key c := fun e => h1 (e.trans h2.symm)
    simp only [if_neg h1] at hab
    simp only [if_neg h3]
    exact h2 ▸ hab
  · simp only [if_neg h1] at hab
    simp only [if_neg h2] at hbc
    have h3 : charListLE (key a).data (key c).data = true :=
      charListLE_trans _ _ _ hab hbc
    by_cases h4 : key a = key c
    · have hba : charListLE (key b).data (key a).data = true := by
        rw [h4]; exact hbc
      have hdata : (key a).data = (key b).data := charListLE_antisymm _ _ hab hba
      exact absurd (String.ext hdata) h1
    · simpa [if_neg h4, strLE] using h3

/-- `events.sort_values([key, "event_time"])`.  pandas sorts on several
columns with `numpy.lexsort`, a stable sort, so the line is embedded as a
stable (insertion) sort under the lexicographic row order. -/
def sortEvents (key : Event → String) (l : List Event) : List Event :=
  l.insertionSort (eventLEP key)

/-- `one_hot_flags`: the 0/1 indicator of one severity class for one row. -/
def indicator01 (cls : String) (e : Event) : Nat :=
  if e.action_classification = cls then 1 else 0

/-- `events.groupby(key)[col].cumsum()` walked row by row over a frame whose
rows are `seen ++ rest` (in that order): each output entry is the inclusive
running sum of the class indicator over the rows of the same `key` group. -/
def groupCumsumAux (key : Event → String) (cls : String) :
    List Event → List Event → List Nat
  | _, [] => []
  | seen, e :: rest =>
      (((seen.filter (fun x => key x == key e)).map (indicator01 cls)).sum
          + indicator01 cls e)
        :: groupCumsumAux key cls (seen ++ [e]) rest

/-- The inclusive per-group cumulative-sum column of the class indicator, in
the current row order of the frame. -/
def groupCumsum (key : Event → String) (cls : String) (l : List Event) : List Nat :=
  groupCumsumAux key cls [] l

/-- `.shift(1).fillna(0)` applied to a whole column: pandas `Series.shift`
moves every value down by one row irrespective of any grouping, the first row
becomes `NaN` and is then filled with `0`. -/
def shiftFillZero (l : List Nat) : List Nat :=
  match l with
  | [] => []
  | _ :: _ => 0 :: l.dropLast

/-- One `<col>_cum_past` column of the training script: sort by
`(key, event_time)`, take the per-group inclusive cumulative sums of the
class indicator, then shift the whole column down by one and fill with zero
(`events.groupby(key)[col].cumsum().shift(1).fillna(0)`).  The entry at
position `i` is attached to row `i` of the sorted frame. -/
def cumPastCol (key : Event → String) (cls : String) (events : List Event) : List Nat :=
  shiftFillZero (groupCumsum key cls (sortEvents key events))

/-- The `dev_is_<cls>_cum_past` column (lines 92-97 of the training script). -/
def dev_cum_past (cls : String) (events : List Event) : List Nat :=
  cumPastCol (fun e => e.device_id) cls events

/-- The `mfr_is_<cls>_cum_past` column (lines 104-109 of the training
script).  The line-104 sort runs on the frame produced by line 92, which is
already sorted by `(device_id, event_time)`; the stable re-sort by
`(manufacturer_id, event_time)` therefore breaks manufacturer/time ties by
that device-sorted order, not by the ingestion order of the store. -/
def mfr_cum_past (cls : String) (events : List Event) : List Nat :=
  cumPastCol (fun e => e.manufacturer_id) cls
    (sortEvents (fun e => e.device_id) events)

/-- Elementwise sum of two feature columns. -/
def addCols (xs ys : List Nat) : List Nat := List.zipWith (· + ·) xs ys

/-- `events["device_past_recalls_total"]`: the rowwise sum of the three
device `cum_past` columns. -/
def device_past_recalls_total (events : List Event) : List Nat :=
  addCols (addCols (dev_cum_past "CLASS I" events) (dev_cum_past "CLASS II" events))
    (dev_cum_past "CLASS III" events)

/-- `events["mfr_past_recalls_total"]`: the rowwise sum of the three
manufacturer `cum_past` columns. -/
def mfr_past_recalls_total (events : List Event) : List Nat :=
  addCols (addCols (mfr_cum_past "CLASS I" events) (mfr_cum_past "CLASS II" events))
    (mfr_cum_past "CLASS III" events)

/-- The exclusive per-entity prior count that the specification attaches to
the row at position `i` of the sorted frame: the number of rows strictly
before position `i` that belong to the same entity group and carry the given
class.  (Stated from the claim's wording, to be compared with the value the
code attaches.) -/
def specExclusiveCount (key : Event → String) (cls : String) (events : List Event)
    (i : Nat) : Nat :=
  (((( sortEvents key events).take i).filter
      (fun x => key x == key ((sortEvents key events).getD i default))).map
    (indicator01 cls)).sum

/-- The history snapshot computed by `_device_history` /
`_manufacturer_history` in the predictor: the three per-class counts, their
total, the latest matching event time, and the days-since-prior value. -/
structure Snapshot where
  count_I : Nat
  count_II : Nat
  count_III : Nat
  total : Nat
  last : Option Int
  days : Int
  deriving DecidableEq, Repr

/-- The zero-history snapshot returned when the aggregation matches nothing
(all counts `0`, no previous time, `days = -1`). -/
def zeroSnapshot : Snapshot :=
  { count_I := 0, count_II := 0, count_III := 0, total := 0, last := none, days := -1 }

/-- The `$match` stage of the online aggregation pipeline: events of the
given entity whose resolved `event_time` is below the cutoff.  The deployed
pipeline compares with `$lte` (`strict = false`); `strict = true` is the
strict-prior reading (`$lt`) of the same pipeline. -/
def priorPred (sel : Event → String) (ident : String) (asOf : Int) (strict : Bool)
    (e : Event) : Bool :=
  sel e == ident &&
    (if strict then decide (e.event_time < asOf) else decide (e.event_time ≤ asOf))

/-- The list of store events passing the `$match` stage. -/
def priorEvents (sel : Event → String) (store : List Event) (ident : String)
    (asOf : Int) (strict : Bool) : List Event :=
  store.filter (priorPred sel ident asOf strict)

/-- The online aggregation of `_device_history` / `_manufacturer_history`:
group the matching events by `action_classification`, counting occurrences
and keeping the maximal matching `event_time`; read the three class counts
out of the grouped map with default `0`; `total = cI + cII + cIII`;
`days = (as_of - last).days` — Python `timedelta.days`, i.e. the floor of the
difference in days — when anything matched, and the `-1` sentinel otherwise
(the `if not agg` branch). -/
def entityHistory (sel : Event → String) (store : List Event) (ident : String)
    (asOf : Int) (strict : Bool) : Snapshot :=
  match ((priorEvents sel store ident asOf strict).map (fun e => e.event_time)).max? with
  | none => zeroSnapshot
  | some last =>
      { count_I := (priorEvents sel store ident asOf strict).countP
            (fun e => e.action_classification == "CLASS I"),
        count_II := (priorEvents sel store ident asOf strict).countP
            (fun e => e.action_classification == "CLASS II"),
        count_III := (priorEvents sel store ident asOf strict).countP
            (fun e => e.action_classification == "CLASS III"),
        total := (priorEvents sel store ident asOf strict).countP
            (fun e => e.action_classification == "CLASS I")
          + (priorEvents sel store ident asOf strict).countP
            (fun e => e.action_classification == "CLASS II")
          + (priorEvents sel store ident asOf strict).countP
            (fun e => e.action_classification == "CLASS III"),
        last := some last,
        days := Int.fdiv (asOf - last) 86400 }

/-- `_device_history` of the predictor. -/
def device_history (store : List Event) (device_id : String) (asOf : Int)
    (strict : Bool) : Snapshot :=
  entityHistory (fun e => e.device_id) store device_id asOf strict

/-- `_manufacturer_history` of the predictor. -/
def manufacturer_history (store : List Event) (manufacturer_id : String) (asOf : Int)
    (strict : Bool) : Snapshot :=
  entityHistory (fun e => e.manufacturer_id) store manufacturer_id asOf strict

/-- A raw stored timestamp field: absent (`null`), a value that parses to a
timestamp, or a non-null value that does not parse. -/
inductive RawVal where
  | null : RawVal
  | valid : Int → RawVal
  | malformed : RawVal
  deriving DecidableEq, Repr

/-- A raw event record as both resolvers see it: the three candidate
timestamp fields. -/
structure RawEvent where
  date : RawVal
  date_posted : RawVal
  date_updated : RawVal
  deriving DecidableEq, Repr

/-- `pd.to_datetime(_, errors="coerce")` on one raw field: a parseable value
becomes its timestamp, a missing or malformed value becomes `NaT` (`none`). -/
def to_dt : RawVal → Option Int
  | RawVal.valid t => some t
  | _ => none

/-- `choose_event_time` of the training script: walk `date`, `date_posted`,
`date_updated` in order over the `to_dt`-coerced columns and return the first
value that is not `NaT`; return `NaT` when none is. -/
def choose_event_time (e : RawEvent) : Option Int :=
  match to_dt e.date with
  | some v => some v
  | none =>
    match to_dt e.date_posted with
    | some v => some v
    | none => to_dt e.date_updated

/-- `_event_time_expr` of the predictor: the Mongo expression
`$ifNull [date, $ifNull [date_posted, date_updated]]`, which yields the first
stored value that is not null, with no parsing or validation. -/
def event_time_expr (e : RawEvent) : RawVal :=
  match e.date with
  | RawVal.null =>
    match e.date_posted with
    | RawVal.null => e.date_updated
    | v => v
  | v => v

/-- A record is well formed when none of its candidate fields holds a
malformed (non-null, unparseable) value. -/
def wellFormedRaw (e : RawEvent) : Prop :=
  e.date ≠ RawVal.malformed ∧ e.date_posted ≠ RawVal.malformed
    ∧ e.date_updated ≠ RawVal.malformed

instance (e : RawEvent) : Decidable (wellFormedRaw e) := by
  unfold wellFormedRaw; infer_instance

/-- Replace a malformed field value by null (used to state that the batch
resolver treats malformed exactly like missing). -/
def nullifyMalformed : RawVal → RawVal
  | RawVal.malformed => RawVal.null
  | v => v

/-- A document of the `devices` collection as consulted by
`_get_device_manufacturer_id`. -/
structure DeviceDoc where
  id : String
  manufacturer_id : Option String
  deriving DecidableEq, Repr

/-- `_get_device_manufacturer_id`: `db.devices.find_one({"id": device_id})`
projected to `manufacturer_id`; `None` when no document matches or the field
is absent. -/
def get_device_manufacturer_id (devices : List DeviceDoc) (device_id : String) :
    Option String :=
  match devices.find? (fun doc => doc.id == device_id) with
  | none => none
  | some doc => doc.manufacturer_id

/-- Python truthiness of an optional CLI string: `None` and `""` are falsy. -/
def truthy : Option String → Bool
  | none => false
  | some s => !s.isEmpty

/-- The id flags consumed by `_build_pre_features_with_mongo_from_flags`. -/
structure PreFlags where
  device_id : Option String
  manufacturer_id : Option String
  deriving DecidableEq, Repr

/-- The manufacturer id used by `_build_pre_features_with_mongo_from_flags`:
the flag value, except that when the flag is falsy and a device id is
supplied it is replaced by the value looked up in the devices collection. -/
def resolved_manufacturer_id (devices : List DeviceDoc) (fl : PreFlags) :
    Option String :=
  if !truthy fl.manufacturer_id && truthy fl.device_id then
    get_device_manufacturer_id devices (fl.device_id.getD "")
  else fl.manufacturer_id

/-- The manufacturer-level history block of the assembled feature row:
`mfr_counts` stays the zero snapshot unless the resolved manufacturer id is
truthy, in which case `_manufacturer_history` is consulted at the current
time. -/
def mfr_feature_part (devices : List DeviceDoc) (events : List Event)
    (fl : PreFlags) (asOf : Int) : Snapshot :=
  if truthy (resolved_manufacturer_id devices fl) then
    manufacturer_history events ((resolved_manufacturer_id devices fl).getD "") asOf false
  else zeroSnapshot

/-- Python `str.strip()`: remove whitespace from both ends. -/
def pyStrip (s : String) : String :=
  ⟨((s.data.dropWhile Char.isWhitespace).reverse.dropWhile Char.isWhitespace).reverse⟩

/-- Python `str.lower()`: lower-case character by character. -/
def pyLower (s : String) : String :=
  ⟨s.data.map Char.toLower⟩

/-- `_bool01` of the predictor: `1` iff the trimmed, lower-cased string form
of the value is one of `"true"`, `"1"`, `"yes"`, `"y"`
(`1 if str(v).strip().lower() in {"true","1","yes","y"} else 0`). -/
def bool01 (v : String) : Nat :=
  if pyLower (pyStrip v) = "true" ∨ pyLower (pyStrip v) = "1"
      ∨ pyLower (pyStrip v) = "yes" ∨ pyLower (pyStrip v) = "y" then 1 else 0

/-- The coercion the training script applies to the `implanted` column:
`1 if str(x).strip().lower() in {"true","1","yes","y"} else 0`. -/
def train_bool_coerce (v : String) : Nat :=
  if pyLower (pyStrip v) = "true" ∨ pyLower (pyStrip v) = "1"
      ∨ pyLower (pyStrip v) = "yes" ∨ pyLower (pyStrip v) = "y" then 1 else 0

/-- Store with one CLASS I event for each of two distinct devices; exhibits
the cross-entity leak of the batch `cum_past` columns. -/
def storeC2 : List Event :=
  [{ idx := 0, device_id := "A", manufacturer_id := "M1",
     action_classification := "CLASS I", event_time := 0 },
   { idx := 1, device_id := "B", manufacturer_id := "M2",
     action_classification := "CLASS I", event_time := 1 }]

/-- The same two-device shape, used to compare the batch per-row snapshot
with the online strict-prior aggregation. -/
def storeC1 : List Event :=
  [{ idx := 0, device_id := "devA", manufacturer_id := "mfrA",
     action_classification := "CLASS I", event_time := 0 },
   { idx := 1, device_id := "devB", manufacturer_id := "mfrB",
     action_classification := "CLASS I", event_time := 1 }]

/-- Store with two tied events of the same device (equal `event_time`) and a
third event of another device, to witness stability of the batch sort. -/
def storeC4 : List Event :=
  [{ idx := 0, device_id := "D", manufacturer_id := "M",
     action_classification := "CLASS II", event_time := 10 },
   { idx := 1, device_id := "D", manufacturer_id := "M",
     action_classification := "CLASS I", event_time := 10 },
   { idx := 2, device_id := "C", manufacturer_id := "M",
     action_classification := "CLASS III", event_time := 5 }]

/-- Store, in ingestion order, with two events of the same manufacturer tied
on `event_time` but held by different devices: the earlier-ingested event
belongs to device `Z`, the later-ingested one to device `A`. -/
def storeC4x : List Event :=
  [{ idx := 0, device_id := "Z", manufacturer_id := "M",
     action_classification := "CLASS I", event_time := 10 },
   { idx := 1, device_id := "A", manufacturer_id := "M",
     action_classification := "CLASS II", event_time := 10 }]

/-- One-event store for the monotonicity witness. -/
def storeC6 : List Event :=
  [{ idx := 0, device_id := "D", manufacturer_id := "M",
     action_classification := "CLASS I", event_time := 50 }]

/-- One-event store for the unknown-entity witness. -/
def storeC7 : List Event :=
  [{ idx := 0, device_id := "D1", manufacturer_id := "M1",
     action_classification := "CLASS II", event_time := 8 }]

/-- One-event store for the days-since-prior witness. -/
def storeC8 : List Event :=
  [{ idx := 0, device_id := "D", manufacturer_id := "M",
     action_classification := "CLASS I", event_time := 100000 }]

/-- Devices collection with one document, for the manufacturer-fallback
witness. -/
def devicesC9 : List DeviceDoc :=
  [{ id := "D1", manufacturer_id := some "M7" }]

/-- Flags supplying a device id but no manufacturer id. -/
def flagsC9 : PreFlags :=
  { device_id := some "D1", manufacturer_id := none }

/-- A record whose highest-priority field is malformed while the next one
parses. -/
def rawC3 : RawEvent :=
  { date := RawVal.malformed, date_posted := RawVal.valid 5,
    date_updated := RawVal.null }

/-- A well-formed record: no malformed candidate field. -/
def rawWF : RawEvent :=
  { date := RawVal.null, date_posted := RawVal.valid 7,
    date_updated := RawVal.valid 9 }

/-- Claim C2: the exclusive cumulative class count attached to row `i` of a
sorted entity group should equal the number of rows before `i` in the same
entity group with a matching class, never counting the row itself or another
entity's events.  The code violates this: `.shift(1)` is applied to the whole
cumulative-sum column, so it shifts across entity-group boundaries and the
first row of each subsequent group inherits the previous group's running
count.  On a store with one `CLASS I` event for device `A` and one for device
`B`, the code attaches `1` to device `B`'s first event, while the exclusive
same-entity count there is `0`. -/
theorem cum_past_shift_crosses_entity_groups :
    dev_cum_past "CLASS I" storeC2 = [0, 1]
      ∧ specExclusiveCount (fun e => e.device_id) "CLASS I" storeC2 1 = 0
      ∧ (dev_cum_past "CLASS I" storeC2).getD 1 0
          ≠ specExclusiveCount (fun e => e.device_id) "CLASS I" storeC2 1 := by
  refine ⟨by decide, by decide, by decide⟩

/-- Claim C1: for a historical event with entity id `D` and event time `T`,
the online aggregation for `D` at cutoff `T` with strict-prior semantics
should equal, field by field, the batch per-row snapshot of that row.  The
code violates this: on the two-device store below, the batch columns attach a
per-class count of `1` and a total of `1` to device `devB`'s first (and only)
event — the previous device group's count leaks through the unguarded
`.shift(1)` — while the online strict-prior aggregation at that event's own
time returns the all-zero snapshot. -/
theorem batch_online_history_diverge :
    (dev_cum_past "CLASS I" storeC1).getD 1 0 = 1
      ∧ (device_past_recalls_total storeC1).getD 1 0 = 1
      ∧ device_history storeC1 "devB" 1 true = zeroSnapshot
      ∧ (dev_cum_past "CLASS I" storeC1).getD 1 0
          ≠ (device_history storeC1 "devB" 1 true).count_I := by
  refine ⟨by decide, by decide, by decide, by decide⟩

/-- Claim C3, counterexample: the two resolvers do not compute the same
function on every record.  On a record whose `date` field is malformed and
whose `date_posted` parses, the batch resolver falls through and returns the
`date_posted` timestamp, while the online `$ifNull` chain returns the
malformed `date` value itself, which denotes no timestamp. -/
theorem resolver_divergence_on_malformed :
    choose_event_time rawC3 = some 5
      ∧ event_time_expr rawC3 = RawVal.malformed
      ∧ to_dt (event_time_expr rawC3) ≠ choose_event_time rawC3 := by
  refine ⟨rfl, rfl, by decide⟩

/-- Claim C3, amended: the batch resolver returns the first candidate field
that parses, treating a malformed value exactly like a missing one (replacing
any malformed field by null does not change its output), and the online
resolver agrees with it on every record none of whose fields is malformed;
they diverge only on records holding a malformed value. -/
theorem resolver_fallback_and_agreement :
    (∀ e : RawEvent,
      choose_event_time
          { date := nullifyMalformed e.date,
            date_posted := nullifyMalformed e.date_posted,
            date_updated := nullifyMalformed e.date_updated }
        = choose_event_time e)
      ∧ (∀ e : RawEvent, wellFormedRaw e →
          to_dt (event_time_expr e) = choose_event_time e) := by
  constructor
  · intro e
    obtain ⟨d, p, u⟩ := e
    cases d <;> cases p <;> cases u <;> rfl
  · intro e hw
    obtain ⟨d, p, u⟩ := e
    obtain ⟨h1, h2, h3⟩ := hw
    cases d <;> cases p <;> cases u <;>
      first
        | rfl
        | exact absurd rfl h1
        | exact absurd rfl h2

/-- Witness for the amended claim C3 at a concrete well-formed record. -/
theorem resolver_agreement_witness :
    wellFormedRaw rawWF
      ∧ to_dt (event_time_expr rawWF) = choose_event_time rawWF :=
  ⟨by decide, resolver_fallback_and_agreement.2 rawWF (by decide)⟩

/-- Claim C10: the coercion of the `implanted` attribute is the same function
at training and at prediction time; it maps a value to `1` exactly when its
trimmed lower-case form is one of `"true"`, `"1"`, `"yes"`, `"y"`, and it is
total with range `{0, 1}`. -/
theorem implanted_coercion_equivalent :
    (∀ v : String, train_bool_coerce v = bool01 v)
      ∧ (∀ v : String, bool01 v = 1
          ↔ (pyLower (pyStrip v) = "true" ∨ pyLower (pyStrip v) = "1"
              ∨ pyLower (pyStrip v) = "yes" ∨ pyLower (pyStrip v) = "y"))
      ∧ (∀ v : String, bool01 v = 0 ∨ bool01 v = 1) := by
  refine ⟨fun v => rfl, fun v => ?_, fun v => ?_⟩
  · constructor
    · intro h1
      by_contra hc
      unfold bool01 at h1
      rw [if_neg hc] at h1
      exact absurd h1 (by decide)
    · intro h
      unfold bool01
      rw [if_pos h]
  · by_cases h : (pyLower (pyStrip v) = "true" ∨ pyLower (pyStrip v) = "1"
      ∨ pyLower (pyStrip v) = "yes" ∨ pyLower (pyStrip v) = "y")
    · exact Or.inr (by unfold bool01; rw [if_pos h])
    · exact Or.inl (by unfold bool01; rw [if_neg h])

/-- Witness for claim C10 at a concrete input. -/
theorem implanted_coercion_witness :
    train_bool_coerce " Yes " = bool01 " Yes " ∧ bool01 " Yes " = 1 :=
  ⟨implanted_coercion_equivalent.1 " Yes ",
   (implanted_coercion_equivalent.2.1 " Yes ").mpr
     (Or.inr (Or.inr (Or.inl (by decide))))⟩

/-- Rows tied on the full sort key keep their relative order: filtering the
sorted frame down to one `(key, event_time)` value yields exactly the same
list as filtering the original frame (stability of the stable sort). -/
theorem sortEvents_filter_tied (key : Event → String) (l : List Event)
    (k : String) (t : Int) :
    (sortEvents key l).filter (fun e => key e == k && e.event_time == t)
      = l.filter (fun e => key e == k && e.event_time == t) := by
  set p : Event → Bool := fun e => key e == k && e.event_time == t with hp
  have hpw : (l.filter p).Pairwise (eventLEP key) := by
    rw [List.pairwise_iff_forall_sublist]
    intro a b hab
    have ha : a ∈ l.filter p := hab.subset (by simp)
    have hb : b ∈ l.filter p := hab.subset (by simp)
    have pa := (List.mem_filter.mp ha).2
    have pb := (List.mem_filter.mp hb).2
    simp only [hp, Bool.and_eq_true, beq_iff_eq] at pa pb
    unfold eventLEP eventLE
    rw [if_pos (pa.1.trans pb.1.symm)]
    simp [pa.2, pb.2]
  have h1 : List.Sublist (l.filter p) (sortEvents key l) :=
    List.sublist_insertionSort hpw (List.filter_sublist l)
  have h2 : List.Sublist (l.filter p) ((sortEvents key l).filter p) := by
    have h3 := h1.filter p
    rwa [List.filter_eq_self.mpr (fun a ha => (List.mem_filter.mp ha).2)] at h3
  have h4 : ((sortEvents key l).filter p).length = (l.filter p).length :=
    ((List.perm_insertionSort (eventLEP key) l).filter p).length_eq
  exact (h2.eq_of_length h4.symm).symm

/-- Stability of the stable sort relative to its input order: any relation
that holds pairwise on the input list still holds, after sorting, between
rows tied on the full `(key, event_time)` sort key. -/
theorem sortEvents_tied_pairwise (key : Event → String) (l : List Event)
    {R : Event → Event → Prop} (h : l.Pairwise R) :
    (sortEvents key l).Pairwise
      (fun a b => key a = key b → a.event_time = b.event_time → R a b) := by
  rw [List.pairwise_iff_forall_sublist]
  intro a b hab hk ht
  have hfab : [a, b].filter (fun e => key e == key a && e.event_time == a.event_time)
      = [a, b] := by
    simp [List.filter, ← hk, ← ht]
  have h1 := hab.filter (fun e => key e == key a && e.event_time == a.event_time)
  rw [hfab, sortEvents_filter_tied] at h1
  have h2 : List.Sublist [a, b] l := h1.trans (List.filter_sublist l)
  exact List.pairwise_iff_forall_sublist.mp h h2

/-- Claim C4, counterexample: on the manufacturer path the tie-break does not
preserve ingestion order, and an event does count as prior a tied event that
was inserted after it.  `storeC4x` is in ingestion order; the line-104 order
(the re-sort, by manufacturer, of the device-sorted frame) places the
later-ingested event (idx 1, device `A`) before the earlier-ingested one
(idx 0, device `Z`), and the `mfr_is_II_cum_past` value attached to the
earlier-ingested event is `1`: it counts the tied, later-ingested `CLASS II`
event as prior. -/
theorem mfr_tie_order_not_ingestion :
    storeC4x.Pairwise (fun a b => a.idx < b.idx)
      ∧ ((sortEvents (fun e => e.manufacturer_id)
            (sortEvents (fun e => e.device_id) storeC4x)).map (fun e => e.idx))
          = [1, 0]
      ∧ mfr_cum_past "CLASS II" storeC4x = [0, 1] := by
  refine ⟨by decide, by decide, by decide⟩

/-- Claim C4, amended: both orderings used for the cumulative counts are
deterministic stable sorts and sort ascending on `(key, event_time)`.  On a
frame whose rows carry strictly increasing ingestion indices, the device-level
order (line 92) keeps device/time-tied rows in ingestion order, so no event
counts as prior a device-tied event inserted after it; the manufacturer-level
order (line 104), being the stable re-sort of the device-sorted frame, keeps
manufacturer/time-tied rows in device-then-ingestion order: ties are broken
by the device id (codepoint-lexicographically) and by ingestion order only
among rows of the same device, so an event may count as prior a
manufacturer-tied event ingested after it when that event carries a smaller
device id. -/
theorem sort_tie_order_device_then_ingestion (l : List Event)
    (h : l.Pairwise (fun a b => a.idx < b.idx)) :
    (sortEvents (fun e => e.device_id) l).Pairwise (eventLEP (fun e => e.device_id))
      ∧ (sortEvents (fun e => e.device_id) l).Pairwise
          (fun a b => a.device_id = b.device_id → a.event_time = b.event_time →
            a.idx < b.idx)
      ∧ (sortEvents (fun e => e.manufacturer_id)
            (sortEvents (fun e => e.device_id) l)).Pairwise
          (eventLEP (fun e => e.manufacturer_id))
      ∧ (sortEvents (fun e => e.manufacturer_id)
            (sortEvents (fun e => e.device_id) l)).Pairwise
          (fun a b => a.manufacturer_id = b.manufacturer_id →
            a.event_time = b.event_time →
            ((a.device_id ≠ b.device_id ∧ strLE a.device_id b.device_id = true)
              ∨ (a.device_id = b.device_id ∧ a.idx < b.idx))) := by
  have hsorted_dev : (sortEvents (fun e => e.device_id) l).Pairwise
      (eventLEP (fun e => e.device_id)) :=
    List.sorted_insertionSort _ l
  have hstable_dev := sortEvents_tied_pairwise (fun e => e.device_id) l h
  refine ⟨hsorted_dev, hstable_dev, List.sorted_insertionSort _ _, ?_⟩
  have hcomb : (sortEvents (fun e => e.device_id) l).Pairwise
      (fun a b => eventLEP (fun e => e.device_id) a b
        ∧ (a.device_id = b.device_id → a.event_time = b.event_time →
            a.idx < b.idx)) := by
    rw [List.pairwise_iff_forall_sublist]
    intro a b hab
    exact ⟨List.pairwise_iff_forall_sublist.mp hsorted_dev hab,
      List.pairwise_iff_forall_sublist.mp hstable_dev hab⟩
  have hfinal := sortEvents_tied_pairwise (fun e => e.manufacturer_id) _ hcomb
  refine hfinal.imp ?_
  intro a b hR hm ht
  obtain ⟨hle, hidx⟩ := hR hm ht
  unfold eventLEP eventLE at hle
  by_cases hd : a.device_id = b.device_id
  · exact Or.inr ⟨hd, hidx hd ht⟩
  · rw [if_neg hd] at hle
    exact Or.inl ⟨hd, hle⟩

/-- Witness for the amended claim C4 on a concrete ingestion-ordered store
containing a same-device tie. -/
theorem sort_tie_order_witness :
    storeC4.Pairwise (fun a b => a.idx < b.idx)
      ∧ ((sortEvents (fun e => e.device_id) storeC4).Pairwise
            (eventLEP (fun e => e.device_id))
        ∧ (sortEvents (fun e => e.device_id) storeC4).Pairwise
            (fun a b => a.device_id = b.device_id → a.event_time = b.event_time →
              a.idx < b.idx)
        ∧ (sortEvents (fun e => e.manufacturer_id)
              (sortEvents (fun e => e.device_id) storeC4)).Pairwise
            (eventLEP (fun e => e.manufacturer_id))
        ∧ (sortEvents (fun e => e.manufacturer_id)
              (sortEvents (fun e => e.device_id) storeC4)).Pairwise
            (fun a b => a.manufacturer_id = b.manufacturer_id →
              a.event_time = b.event_time →
              ((a.device_id ≠ b.device_id ∧ strLE a.device_id b.device_id = true)
                ∨ (a.device_id = b.device_id ∧ a.idx < b.idx)))) :=
  ⟨by decide, sort_tie_order_device_then_ingestion storeC4 (by decide)⟩

theorem length_groupCumsumAux (key : Event → String) (cls : String) :
    ∀ (seen l : List Event), (groupCumsumAux key cls seen l).length = l.length := by
  intro seen l
  induction l generalizing seen with
  | nil => rfl
  | cons e rest ih => simp [groupCumsumAux, ih]

theorem length_shiftFillZero (l : List Nat) : (shiftFillZero l).length = l.length := by
  cases l with
  | nil => rfl
  | cons x xs => simp [shiftFillZero]

theorem length_sortEvents (key : Event → String) (l : List Event) :
    (sortEvents key l).length = l.length := by
  unfold sortEvents
  rw [List.length_insertionSort]

theorem length_cumPastCol (key : Event → String) (cls : String) (events : List Event) :
    (cumPastCol key cls events).length = events.length := by
  unfold cumPastCol groupCumsum sortEvents
  rw [length_shiftFillZero, length_groupCumsumAux, List.length_insertionSort]

theorem length_addCols (xs ys : List Nat) :
    (addCols xs ys).length = min xs.length ys.length := by
  simp [addCols]

theorem getD_addCols : ∀ (xs ys : List Nat), xs.length = ys.length →
    ∀ i, (addCols xs ys).getD i 0 = xs.getD i 0 + ys.getD i 0 := by
  intro xs
  induction xs with
  | nil =>
    intro ys h i
    have hy : ys = [] := List.length_eq_zero.mp h.symm
    subst hy
    simp [addCols]
  | cons x xs ih =>
    intro ys h i
    cases ys with
    | nil => simp at h
    | cons y ys =>
      cases i with
      | zero => simp [addCols]
      | succ n =>
        have hl : xs.length = ys.length := by simpa using h
        simpa [addCols] using ih ys hl n

theorem entityHistory_total_eq_sum (sel : Event → String) (store : List Event)
    (ident : String) (asOf : Int) (strict : Bool) :
    (entityHistory sel store ident asOf strict).total
      = (entityHistory sel store ident asOf strict).count_I
        + (entityHistory sel store ident asOf strict).count_II
        + (entityHistory sel store ident asOf strict).count_III := by
  unfold entityHistory
  cases ((priorEvents sel store ident asOf strict).map (fun e => e.event_time)).max? <;> rfl

theorem countP_priorEvents (sel : Event → String) (store : List Event)
    (ident : String) (asOf : Int) (strict : Bool) (cls : String) :
    (priorEvents sel store ident asOf strict).countP
        (fun e => e.action_classification == cls)
      = store.countP (fun e => (e.action_classification == cls)
          && priorPred sel ident asOf strict e) := by
  unfold priorEvents
  exact List.countP_filter (fun e => e.action_classification == cls)
    (priorPred sel ident asOf strict) store

theorem entityHistory_total_countP (sel : Event → String) (store : List Event)
    (ident : String) (asOf : Int) (strict : Bool) :
    (entityHistory sel store ident asOf strict).total
      = store.countP (fun e => (e.action_classification == "CLASS I")
            && priorPred sel ident asOf strict e)
        + store.countP (fun e => (e.action_classification == "CLASS II")
            && priorPred sel ident asOf strict e)
        + store.countP (fun e => (e.action_classification == "CLASS III")
            && priorPred sel ident asOf strict e) := by
  unfold entityHistory
  cases hmax : ((priorEvents sel store ident asOf strict).map (fun e => e.event_time)).max? with
  | none =>
    have hnil : priorEvents sel store ident asOf strict = [] :=
      List.map_eq_nil_iff.mp (List.max?_eq_none_iff.mp hmax)
    rw [← countP_priorEvents, ← countP_priorEvents, ← countP_priorEvents, hnil]
    rfl
  | some last =>
    rw [← countP_priorEvents, ← countP_priorEvents, ← countP_priorEvents]

/-- Claim C5: in both modes the total prior count equals the sum of the three
per-class prior counts, for every online snapshot and at every row of the
batch total columns. -/
theorem total_prior_eq_sum_of_class_counts :
    (∀ (store : List Event) (d : String) (asOf : Int) (strict : Bool),
      (device_history store d asOf strict).total
        = (device_history store d asOf strict).count_I
          + (device_history store d asOf strict).count_II
          + (device_history store d asOf strict).count_III)
      ∧ (∀ (store : List Event) (m : String) (asOf : Int) (strict : Bool),
          (manufacturer_history store m asOf strict).total
            = (manufacturer_history store m asOf strict).count_I
              + (manufacturer_history store m asOf strict).count_II
              + (manufacturer_history store m asOf strict).count_III)
      ∧ (∀ (events : List Event) (i : Nat),
          (device_past_recalls_total events).getD i 0
            = (dev_cum_past "CLASS I" events).getD i 0
              + (dev_cum_past "CLASS II" events).getD i 0
              + (dev_cum_past "CLASS III" events).getD i 0)
      ∧ (∀ (events : List Event) (i : Nat),
          (mfr_past_recalls_total events).getD i 0
            = (mfr_cum_past "CLASS I" events).getD i 0
              + (mfr_cum_past "CLASS II" events).getD i 0
              + (mfr_cum_past "CLASS III" events).getD i 0) := by
  refine ⟨fun store d asOf strict => entityHistory_total_eq_sum _ _ _ _ _,
    fun store m asOf strict => entityHistory_total_eq_sum _ _ _ _ _,
    fun events i => ?_, fun events i => ?_⟩
  · have lI : (dev_cum_past "CLASS I" events).length = events.length :=
      length_cumPastCol _ _ _
    have lII : (dev_cum_past "CLASS II" events).length = events.length :=
      length_cumPastCol _ _ _
    have lIII : (dev_cum_past "CLASS III" events).length = events.length :=
      length_cumPastCol _ _ _
    have h1 : (addCols (dev_cum_past "CLASS I" events)
        (dev_cum_past "CLASS II" events)).length
        = (dev_cum_past "CLASS III" events).length := by
      rw [length_addCols, lI, lII, lIII, Nat.min_self]
    have h2 : (dev_cum_past "CLASS I" events).length
        = (dev_cum_past "CLASS II" events).length := lI.trans lII.symm
    unfold device_past_recalls_total
    rw [getD_addCols _ _ h1 i, getD_addCols _ _ h2 i]
  · have lI : (mfr_cum_past "CLASS I" events).length = events.length :=
      (length_cumPastCol _ _ _).trans (length_sortEvents _ _)
    have lII : (mfr_cum_past "CLASS II" events).length = events.length :=
      (length_cumPastCol _ _ _).trans (length_sortEvents _ _)
    have lIII : (mfr_cum_past "CLASS III" events).length = events.length :=
      (length_cumPastCol _ _ _).trans (length_sortEvents _ _)
    have h1 : (addCols (mfr_cum_past "CLASS I" events)
        (mfr_cum_past "CLASS II" events)).length
        = (mfr_cum_past "CLASS III" events).length := by
      rw [length_addCols, lI, lII, lIII, Nat.min_self]
    have h2 : (mfr_cum_past "CLASS I" events).length
        = (mfr_cum_past "CLASS II" events).length := lI.trans lII.symm
    unfold mfr_past_recalls_total
    rw [getD_addCols _ _ h1 i, getD_addCols _ _ h2 i]

/-- Claim C6: for a fixed entity and store, the online total prior count is
monotone in the cutoff. -/
theorem online_total_prior_monotone (store : List Event) (d : String)
    (strict : Bool) (T1 T2 : Int) (h : T1 ≤ T2) :
    (device_history store d T1 strict).total
      ≤ (device_history store d T2 strict).total := by
  unfold device_history
  rw [entityHistory_total_countP, entityHistory_total_countP]
  have mono : ∀ cls : String,
      store.countP (fun e => (e.action_classification == cls)
          && priorPred (fun e => e.device_id) d T1 strict e)
        ≤ store.countP (fun e => (e.action_classification == cls)
          && priorPred (fun e => e.device_id) d T2 strict e) := by
    intro cls
    apply List.countP_mono_left
    intro x _ hpx
    simp only [priorPred, Bool.and_eq_true, beq_iff_eq, decide_eq_true_eq] at hpx ⊢
    cases strict <;> simp_all <;> omega
  exact Nat.add_le_add (Nat.add_le_add (mono "CLASS I") (mono "CLASS II"))
    (mono "CLASS III")

/-- Witness for claim C6 at a concrete store and pair of cutoffs. -/
theorem online_total_prior_monotone_witness :
    (50 : Int) ≤ 100
      ∧ (device_history storeC6 "D" 50 false).total
          ≤ (device_history storeC6 "D" 100 false).total :=
  ⟨by decide, online_total_prior_monotone storeC6 "D" false 50 100 (by decide)⟩

theorem entityHistory_no_match (sel : Event → String) (store : List Event)
    (ident : String) (asOf : Int) (strict : Bool)
    (h : ∀ e ∈ store, sel e ≠ ident) :
    entityHistory sel store ident asOf strict = zeroSnapshot := by
  have hnil : priorEvents sel store ident asOf strict = [] := by
    unfold priorEvents
    rw [List.filter_eq_nil_iff]
    intro e he
    simp only [priorPred, Bool.and_eq_true, beq_iff_eq, not_and]
    intro hsel
    exact absurd hsel (h e he)
  unfold entityHistory
  rw [hnil]
  rfl

/-- Claim C7: an entity id with no events in the store is not an error: both
online aggregators return the zero snapshot with `days = -1`. -/
theorem unknown_entity_zero_snapshot (store : List Event) (ident : String)
    (asOf : Int) :
    ((∀ e ∈ store, e.device_id ≠ ident) →
        device_history store ident asOf false = zeroSnapshot)
      ∧ ((∀ e ∈ store, e.manufacturer_id ≠ ident) →
          manufacturer_history store ident asOf false = zeroSnapshot) :=
  ⟨fun h => entityHistory_no_match _ _ _ _ _ h,
   fun h => entityHistory_no_match _ _ _ _ _ h⟩

/-- Witness for claim C7 on a concrete store and unknown ids. -/
theorem unknown_entity_zero_snapshot_witness :
    (∀ e ∈ storeC7, e.device_id ≠ "D9")
      ∧ device_history storeC7 "D9" 5 false = zeroSnapshot
      ∧ (∀ e ∈ storeC7, e.manufacturer_id ≠ "M9")
      ∧ manufacturer_history storeC7 "M9" 5 false = zeroSnapshot :=
  ⟨by decide, (unknown_entity_zero_snapshot storeC7 "D9" 5).1 (by decide),
   by decide, (unknown_entity_zero_snapshot storeC7 "M9" 5).2 (by decide)⟩

/-- Claim C8: online `days_since_prior` is the floor of the day difference to
the latest prior event when one exists (in particular it is nonnegative and
never the `-1` sentinel), and it is `-1` exactly when no prior event exists. -/
theorem days_since_prior_floor_or_sentinel (store : List Event) (d : String)
    (asOf : Int) :
    ((device_history store d asOf false).days = -1
        ↔ priorEvents (fun e => e.device_id) store d asOf false = [])
      ∧ (∀ last : Int,
          ((priorEvents (fun e => e.device_id) store d asOf false).map
              (fun e => e.event_time)).max? = some last →
            (device_history store d asOf false).days = Int.fdiv (asOf - last) 86400
              ∧ 0 ≤ (device_history store d asOf false).days) := by
  unfold device_history entityHistory
  cases hmax : ((priorEvents (fun e => e.device_id) store d asOf false).map
      (fun e => e.event_time)).max? with
  | none =>
    refine ⟨⟨fun _ => List.map_eq_nil_iff.mp (List.max?_eq_none_iff.mp hmax),
      fun _ => rfl⟩, fun last hl => ?_⟩
    exact Option.noConfusion hl
  | some last0 =>
    have hmem : last0 ∈ (priorEvents (fun e => e.device_id) store d asOf false).map
        (fun e => e.event_time) :=
      List.max?_mem (fun a b => max_choice a b) hmax
    obtain ⟨e, he, hte⟩ := List.mem_map.mp hmem
    have hped := (List.mem_filter.mp he).2
    simp only [priorPred, Bool.and_eq_true, beq_iff_eq, decide_eq_true_eq,
      Bool.if_false_left, Bool.if_false_right, if_false] at hped
    have hle : last0 ≤ asOf := by
      rw [← hte]
      simp_all
    have hnonneg : 0 ≤ Int.fdiv (asOf - last0) 86400 :=
      Int.fdiv_nonneg (by omega) (by norm_num)
    refine ⟨⟨fun hd => ?_, fun hnil => ?_⟩, fun last hl => ?_⟩
    · have hd2 : Int.fdiv (asOf - last0) 86400 = -1 := hd
      omega
    · rw [hnil] at hmax
      exact Option.noConfusion hmax
    · have : last = last0 := by
        have := hl
        injection this with h2
        exact h2.symm
      subst this
      exact ⟨rfl, hnonneg⟩

/-- Witness for claim C8 on a concrete store with one prior event. -/
theorem days_since_prior_witness :
    ((device_history storeC8 "D" 200000 false).days = -1
        ↔ priorEvents (fun e => e.device_id) storeC8 "D" 200000 false = [])
      ∧ (device_history storeC8 "D" 200000 false).days
          = Int.fdiv (200000 - 100000) 86400
      ∧ 0 ≤ (device_history storeC8 "D" 200000 false).days :=
  ⟨(days_since_prior_floor_or_sentinel storeC8 "D" 200000).1,
   ((days_since_prior_floor_or_sentinel storeC8 "D" 200000).2 100000 (by decide)).1,
   ((days_since_prior_floor_or_sentinel storeC8 "D" 200000).2 100000 (by decide)).2⟩

/-- Claim C9: when no manufacturer id is supplied but a device id is, the
assembler resolves the manufacturer id by looking the device up in the
devices collection; when that resolution yields nothing, or neither id is
supplied, the manufacturer-level feature block is the zero snapshot rather
than a failure. -/
theorem manufacturer_fallback_resolution (devices : List DeviceDoc)
    (events : List Event) (fl : PreFlags) (asOf : Int) :
    ((truthy fl.manufacturer_id = false) → (truthy fl.device_id = true) →
        resolved_manufacturer_id devices fl
          = get_device_manufacturer_id devices (fl.device_id.getD ""))
      ∧ (resolved_manufacturer_id devices fl = none →
          mfr_feature_part devices events fl asOf = zeroSnapshot)
      ∧ ((truthy fl.manufacturer_id = false) → (truthy fl.device_id = false) →
          mfr_feature_part devices events fl asOf = zeroSnapshot) := by
  refine ⟨?_, ?_, ?_⟩
  · intro h1 h2
    unfold resolved_manufacturer_id
    rw [if_pos (by rw [h1, h2]; rfl)]
  · intro h
    unfold mfr_feature_part
    rw [h]
    simp [truthy]
  · intro h1 h2
    unfold mfr_feature_part resolved_manufacturer_id
    simp [h1, h2]

/-- Witness for claim C9 on a concrete devices collection and flag set. -/
theorem manufacturer_fallback_resolution_witness :
    truthy flagsC9.manufacturer_id = false
      ∧ truthy flagsC9.device_id = true
      ∧ resolved_manufacturer_id devicesC9 flagsC9
          = get_device_manufacturer_id devicesC9 (flagsC9.device_id.getD "") :=
  ⟨rfl, rfl, (manufacturer_fallback_resolution devicesC9 [] flagsC9 0).1 rfl rfl⟩
